import Mathlib

/-!
Shallow embedding of the parameter-recovery core of the
`pdi-sampling-demo` notebook (`recover_mass_dist` and its moment-relation
helpers `f1`, `f2`, `recovered_gauss_sigma`), together with theorems
settling the frozen claims about it.

Modelling conventions:
* Python floats are modelled as real numbers (`ℝ`); `x ** y` between
  floats is `Real.rpow`, `x ** 2` with the integer literal is squaring.
* `np.exp` is `Real.exp` and `scipy.special.gamma` is `Real.Gamma`.
* A Python string is a `List Char`; `str.lower()` is `List.map Char.toLower`.
* Optional keyword arguments (`Mn=None`, ...) are `Option ℝ`.
* `raise ValueError` and the two `assert` statements are the three
  constructors of `RecoverError` (the spec's `InvalidArgument`,
  `InsufficientData`, `InconsistentMoments`).
* The pieces of ambient state that `recover_mass_dist` reads but does not
  own are collected in `PyEnv`: the external root finder
  `scipy.optimize.root` (abstracted as a function from residual and
  initial guess to the returned iterate `a['x']`), and the module-level
  globals `weib_M_n`, `weib_M_w` left behind by the notebook's earlier
  example cells, which the Weibull branch reads.
-/

namespace PolyBinder

/-- Failure modes of `recover_mass_dist`: the `ValueError` raised for an
unrecognized distribution string, and the two `assert` failures (fewer
than two of `[pdi, Mn, Mw]` given; PDI not matching `Mw/Mn`). -/
inductive RecoverError where
  | invalidArgument
  | insufficientData
  | inconsistentMoments
deriving DecidableEq

/-- Python `str.lower()` on the characters of a string. -/
def pyLower (s : List Char) : List Char := s.map Char.toLower

/-- The characters of the literal `'gaussian'`. -/
def gaussianChars : List Char := ['g', 'a', 'u', 's', 's', 'i', 'a', 'n']

/-- The characters of the literal `'weibull'`. -/
def weibullChars : List Char := ['w', 'e', 'i', 'b', 'u', 'l', 'l']

/-- The characters of `'Gaussian'`, the default value of the
`distribution` keyword argument of `recover_mass_dist`. -/
def defaultDistribution : List Char := ['G', 'a', 'u', 's', 's', 'i', 'a', 'n']

/-- `sum([x is not None for x in l])`: how many of the optional
arguments were supplied. -/
def countKnown (l : List (Option ℝ)) : Nat := l.countP (fun x => x.isSome)

/-- Ambient state read by `recover_mass_dist`:
`rootFind residual x0` models the solution array `a['x']` returned by
`scipy.optimize.root(residual, x0=x0)`, and `weib_M_n`, `weib_M_w` are
the module-level globals set by the notebook's earlier Weibull example
cell. -/
structure PyEnv where
  rootFind : (ℝ → ℝ) → ℝ → ℝ
  weib_M_n : ℝ
  weib_M_w : ℝ

/-- `f1(x, Mn, Mw) = (2. * x * gamma(2./x)) / gamma(1./x)**2 - (Mw / Mn)`:
the residual whose root in `x` is the Weibull shape parameter `k`
(the spec's `shapeResidual`). -/
noncomputable def f1 (x Mn Mw : ℝ) : ℝ :=
  2 * x * Real.Gamma (2 / x) / Real.Gamma (1 / x) ^ 2 - Mw / Mn

/-- `f2(Mn, k) = Mn * k / gamma(1./k)`: the Weibull scale parameter from
`Mn` and the shape `k` (the spec's `scaleFromShape`). -/
noncomputable def f2 (Mn k : ℝ) : ℝ := Mn * k / Real.Gamma (1 / k)

/-- `recovered_gauss_sigma(Mn, Mw) = Mn * (Mw - Mn)`: the closed-form
"sigma" (variance-like) term of the recovered Gaussian. -/
noncomputable def recovered_gauss_sigma (Mn Mw : ℝ) : ℝ := Mn * (Mw - Mn)

/-- The closure returned by the Gaussian branch:
`lambda x: np.exp(-(x-Mn)**2 / (2. * sigma))`. -/
noncomputable def gaussDensity (Mn sigma : ℝ) : ℝ → ℝ :=
  fun x => Real.exp (-(x - Mn) ^ 2 / (2 * sigma))

/-- The closure returned by the Weibull branch:
`lambda x: recovered_k / recovered_lambda * (x / recovered_lambda) **
(recovered_k - 1) * np.exp(- (x / recovered_lambda) ** recovered_k)`.
Note there is no special case for `x < 0`. -/
noncomputable def weibullDensity (k lam : ℝ) : ℝ → ℝ :=
  fun x => k / lam * (x / lam) ^ (k - 1) * Real.exp (-(x / lam) ^ k)

/-- `a = scipy.optimize.root(f1, args=(weib_M_n, weib_M_w), x0=1.);
recovered_k = a['x']`: the shape parameter produced inside the Weibull
branch.  The residual is built from the module globals `weib_M_n`,
`weib_M_w`, not from the function's own arguments. -/
noncomputable def recovered_k (env : PyEnv) : ℝ :=
  env.rootFind (fun x => f1 x env.weib_M_n env.weib_M_w) 1

/-- `recovered_lambda = f2(Mn, recovered_k)`: the scale parameter
produced inside the Weibull branch, from the call's own (completed)
`Mn`. -/
noncomputable def recovered_lambda (env : PyEnv) (Mn : ℝ) : ℝ :=
  f2 Mn (recovered_k env)

/-- The dispatch tail of `recover_mass_dist`: the
`if distribution.lower() == 'gaussian' ... elif ... == 'weibull'` chain
(exhaustive here because the unrecognized-string case was already
raised at entry). -/
noncomputable def familyDispatch (env : PyEnv) (Mn Mw : ℝ)
    (distribution : List Char) : Except RecoverError (ℝ → ℝ) :=
  if pyLower distribution = gaussianChars then
    Except.ok (gaussDensity Mn (Mn * (Mw - Mn)))
  else
    Except.ok (weibullDensity (recovered_k env) (recovered_lambda env Mn))

/-- The sequential completion block
`if Mn is None: Mn = Mw / pdi; if Mw is None: Mw = pdi * Mn;
if pdi is None: pdi = Mw / Mn`, run when exactly two values are known
(its `getD 0` fallbacks are unreachable there, since the operand of each
firing formula was supplied). -/
noncomputable def completeMoments (Mn Mw pdi : Option ℝ) : ℝ × ℝ × ℝ :=
  let mn : ℝ := match Mn with
    | none => Mw.getD 0 / pdi.getD 0
    | some v => v
  let mw : ℝ := match Mw with
    | none => pdi.getD 0 * mn
    | some v => v
  let p : ℝ := match pdi with
    | none => mw / mn
    | some v => v
  (mn, mw, p)

/-- `recover_mass_dist(Mn=None, Mw=None, pdi=None, distribution=...)`:
validates the distribution string, requires at least two known moments,
checks `pdi - (Mw/Mn) < 1e-5` when all three are given (note: the code
has no `abs` here), completes the missing value otherwise, and
dispatches to the family branch. -/
noncomputable def recover_mass_dist (env : PyEnv) (Mn Mw pdi : Option ℝ)
    (distribution : List Char) : Except RecoverError (ℝ → ℝ) :=
  if pyLower distribution ≠ gaussianChars ∧ pyLower distribution ≠ weibullChars then
    Except.error RecoverError.invalidArgument
  else if ¬ 2 ≤ countKnown [pdi, Mn, Mw] then
    Except.error RecoverError.insufficientData
  else if countKnown [pdi, Mn, Mw] = 3 then
    if ¬ pdi.getD 0 - Mw.getD 0 / Mn.getD 0 < 1 / 100000 then
      Except.error RecoverError.inconsistentMoments
    else
      familyDispatch env (Mn.getD 0) (Mw.getD 0) distribution
  else
    let c := completeMoments Mn Mw pdi
    familyDispatch env c.1 c.2.1 distribution

/-- A call of `recover_mass_dist` with the `distribution` keyword
omitted, so that its default value `'Gaussian'` is used. -/
noncomputable def recover_mass_dist_default (env : PyEnv) (Mn Mw pdi : Option ℝ) :
    Except RecoverError (ℝ → ℝ) :=
  recover_mass_dist env Mn Mw pdi defaultDistribution

/-- Evaluate the density returned by a `recover_mass_dist` call at a
point, when the call succeeded. -/
noncomputable def applyDensity (r : Except RecoverError (ℝ → ℝ)) (x : ℝ) : Option ℝ :=
  match r with
  | Except.ok f => some (f x)
  | Except.error _ => none

/-- Whether a `recover_mass_dist` call returned a density function
rather than raising. -/
def exceptOk (r : Except RecoverError (ℝ → ℝ)) : Bool :=
  match r with
  | Except.ok _ => true
  | Except.error _ => false

/-- A concrete ambient state whose root finder just returns the initial
guess. -/
noncomputable def env0 : PyEnv := ⟨fun _ x0 => x0, 0, 0⟩

/-- An ambient state whose root finder constantly returns 2, with module
globals `weib_M_n = π`, `weib_M_w = 4`; at that state 2 is the exact
root of the shape residual (since `Γ(1) = 1`, `Γ(1/2)² = π`, so
`f1 2 π 4 = 4/π - 4/π = 0`), so the constant answer models a solver
that converged. -/
noncomputable def envConst2 : PyEnv := ⟨fun _ _ => 2, Real.pi, 4⟩

/-- An ambient state whose root finder performs one residual-correction
step from the initial guess, with prescribed module globals: the result
moves with the residual, hence with the globals. -/
noncomputable def envStep (gMn gMw : ℝ) : PyEnv := ⟨fun g x0 => g x0 + x0, gMn, gMw⟩

/-- `Γ(2) = 1`, needed to evaluate the shape residual at concrete
points. -/
lemma Gamma_two_eq_one : Real.Gamma 2 = 1 := by
  rw [show (2 : ℝ) = 1 + 1 by norm_num, Real.Gamma_add_one one_ne_zero, Real.Gamma_one]
  ring

lemma pyLower_gaussian : pyLower gaussianChars = gaussianChars := by decide

lemma pyLower_weibull : pyLower weibullChars = weibullChars := by decide

/-- `recover_mass_dist` reads its `distribution` argument only through
`pyLower`, so strings with the same lowercasing are interchangeable. -/
lemma recover_pyLower_congr (env : PyEnv) (Mn Mw pdi : Option ℝ) (s t : List Char)
    (h : pyLower s = pyLower t) :
    recover_mass_dist env Mn Mw pdi s = recover_mass_dist env Mn Mw pdi t := by
  unfold recover_mass_dist familyDispatch
  rw [h]

/-- Reduction of `recover_mass_dist` on a recognized family when exactly
two of the three moment arguments are supplied: the validation passes
and the completed moments are dispatched. -/
lemma recover_two_known (env : PyEnv) (Mn Mw pdi : Option ℝ) (dist : List Char)
    (hd : pyLower dist = gaussianChars ∨ pyLower dist = weibullChars)
    (h2 : countKnown [pdi, Mn, Mw] = 2) :
    recover_mass_dist env Mn Mw pdi dist
      = familyDispatch env (completeMoments Mn Mw pdi).1 (completeMoments Mn Mw pdi).2.1 dist := by
  unfold recover_mass_dist
  rw [if_neg (by rcases hd with h | h <;> simp [h]), if_neg (by omega), if_neg (by omega)]

/-- Reduction of the dispatch tail on the Gaussian family. -/
lemma familyDispatch_gaussian (env : PyEnv) (Mn Mw : ℝ) (dist : List Char)
    (h : pyLower dist = gaussianChars) :
    familyDispatch env Mn Mw dist = Except.ok (gaussDensity Mn (Mn * (Mw - Mn))) := by
  unfold familyDispatch
  rw [if_pos h]

/-- Reduction of the dispatch tail on the Weibull family. -/
lemma familyDispatch_weibull (env : PyEnv) (Mn Mw : ℝ) (dist : List Char)
    (h : pyLower dist = weibullChars) :
    familyDispatch env Mn Mw dist
      = Except.ok (weibullDensity (recovered_k env) (recovered_lambda env Mn)) := by
  unfold familyDispatch
  rw [if_neg (by rw [h]; decide)]

/-- C2: for Mw > Mn > 0, Gaussian recovery uses mean Mn and sigma
`recovered_gauss_sigma Mn Mw = Mn * (Mw - Mn)` exactly, and the call
with the Gaussian family returns the density
`x ↦ exp (-(x - Mn)² / (2 σ))` built from those parameters. -/
theorem gaussian_recovery_exact (env : PyEnv) (Mn Mw : ℝ) (_h1 : 0 < Mn) (_h2 : Mn < Mw) :
    recovered_gauss_sigma Mn Mw = Mn * (Mw - Mn)
  ∧ recover_mass_dist env (some Mn) (some Mw) none gaussianChars
      = Except.ok (fun x => Real.exp (-(x - Mn) ^ 2 / (2 * recovered_gauss_sigma Mn Mw))) := by
  refine ⟨rfl, ?_⟩
  rw [recover_two_known env (some Mn) (some Mw) none gaussianChars (Or.inl pyLower_gaussian) rfl,
    familyDispatch_gaussian env _ _ _ pyLower_gaussian]
  rfl

/-- Witness for C2 at the concrete call (Mn=50, Mw=60). -/
theorem gaussian_recovery_exact_witness :
    (0:ℝ) < 50 ∧ (50:ℝ) < 60
  ∧ recover_mass_dist env0 (some 50) (some 60) none gaussianChars
      = Except.ok (fun x => Real.exp (-(x - 50) ^ 2 / (2 * recovered_gauss_sigma 50 60))) :=
  ⟨by norm_num, by norm_num, (gaussian_recovery_exact env0 50 60 (by norm_num) (by norm_num)).2⟩

/-- C6: with fewer than two of Mn, Mw, pdi supplied (and a recognized
family string), the call fails with the insufficient-data error and no
density is returned. -/
theorem insufficient_data_rejected (env : PyEnv) (Mn Mw pdi : Option ℝ) (dist : List Char)
    (hd : pyLower dist = gaussianChars ∨ pyLower dist = weibullChars)
    (h : countKnown [pdi, Mn, Mw] < 2) :
    recover_mass_dist env Mn Mw pdi dist = Except.error RecoverError.insufficientData := by
  unfold recover_mass_dist
  rw [if_neg (by rcases hd with h' | h' <;> simp [h']), if_pos (by omega)]

/-- Witness for C6: a call supplying only pdi fails with the
insufficient-data error. -/
theorem insufficient_data_rejected_witness :
    recover_mass_dist env0 none none (some 2) gaussianChars
      = Except.error RecoverError.insufficientData :=
  insufficient_data_rejected env0 none none (some 2) gaussianChars (Or.inl pyLower_gaussian)
    (by decide)

/-- C7: with exactly two of the three supplied, the missing one is
computed as Mn = Mw/pdi, Mw = pdi·Mn, or pdi = Mw/Mn respectively;
exactly one completion fires, the supplied values pass through
unchanged, and the completed pair is what reaches the family
dispatch. -/
theorem missing_moment_completed (env : PyEnv) (a b : ℝ) (dist : List Char)
    (hd : pyLower dist = gaussianChars ∨ pyLower dist = weibullChars) :
    completeMoments none (some a) (some b) = (a / b, a, b)
  ∧ completeMoments (some a) none (some b) = (a, b * a, b)
  ∧ completeMoments (some a) (some b) none = (a, b, b / a)
  ∧ recover_mass_dist env none (some a) (some b) dist = familyDispatch env (a / b) a dist
  ∧ recover_mass_dist env (some a) none (some b) dist = familyDispatch env a (b * a) dist
  ∧ recover_mass_dist env (some a) (some b) none dist = familyDispatch env a b dist := by
  refine ⟨rfl, rfl, rfl, ?_, ?_, ?_⟩
  · rw [recover_two_known env none (some a) (some b) dist hd rfl]
    rfl
  · rw [recover_two_known env (some a) none (some b) dist hd rfl]
    rfl
  · rw [recover_two_known env (some a) (some b) none dist hd rfl]
    rfl

/-- Witness for C7 at the concrete call (Mn=50, Mw=60, pdi omitted,
gaussian). -/
theorem missing_moment_completed_witness :
    recover_mass_dist env0 (some 50) (some 60) none gaussianChars
      = familyDispatch env0 50 60 gaussianChars :=
  (missing_moment_completed env0 50 60 gaussianChars (Or.inl pyLower_gaussian)).2.2.2.2.2

/-- C8: the density returned by recover(Mn=50, Mw=60, gaussian) has
value 1 at x = 50 and is symmetric about x = 50. -/
theorem gaussian_50_60_peak_symmetric (env : PyEnv) :
    ∃ f, recover_mass_dist env (some 50) (some 60) none gaussianChars = Except.ok f
      ∧ f 50 = 1 ∧ ∀ d : ℝ, f (50 + d) = f (50 - d) := by
  refine ⟨gaussDensity 50 (50 * (60 - 50)), ?_, ?_, fun d => ?_⟩
  · rw [recover_two_known env (some 50) (some 60) none gaussianChars (Or.inl pyLower_gaussian) rfl,
      familyDispatch_gaussian env _ _ _ pyLower_gaussian]
    rfl
  · unfold gaussDensity
    norm_num
  · unfold gaussDensity
    congr 1
    ring

/-- C9: the family selector is matched through `str.lower()`: a string
lowercasing to a family literal behaves exactly as that lowercase
literal, and any string lowercasing to neither literal raises the
invalid-argument error. -/
theorem family_selector_case_insensitive (env : PyEnv) (Mn Mw pdi : Option ℝ) (s : List Char) :
    (pyLower s = gaussianChars →
      recover_mass_dist env Mn Mw pdi s = recover_mass_dist env Mn Mw pdi gaussianChars)
  ∧ (pyLower s = weibullChars →
      recover_mass_dist env Mn Mw pdi s = recover_mass_dist env Mn Mw pdi weibullChars)
  ∧ (pyLower s ≠ gaussianChars → pyLower s ≠ weibullChars →
      recover_mass_dist env Mn Mw pdi s = Except.error RecoverError.invalidArgument) := by
  refine ⟨fun h => recover_pyLower_congr env Mn Mw pdi s gaussianChars (by rw [h, pyLower_gaussian]),
    fun h => recover_pyLower_congr env Mn Mw pdi s weibullChars (by rw [h, pyLower_weibull]),
    fun h1 h2 => ?_⟩
  unfold recover_mass_dist
  rw [if_pos ⟨h1, h2⟩]

/-- Witness for C9: the all-caps spelling of the Gaussian family selects
the same result as the lowercase one. -/
theorem family_selector_case_insensitive_witness :
    recover_mass_dist env0 (some 50) (some 60) none
        ['G', 'A', 'U', 'S', 'S', 'I', 'A', 'N']
      = recover_mass_dist env0 (some 50) (some 60) none gaussianChars :=
  (family_selector_case_insensitive env0 (some 50) (some 60) none
    ['G', 'A', 'U', 'S', 'S', 'I', 'A', 'N']).1 (by decide)

/-- C10: a call with the distribution argument omitted uses the default
'Gaussian', so it returns exactly what the explicit Gaussian call
returns, on every input. -/
theorem default_family_is_gaussian (env : PyEnv) (Mn Mw pdi : Option ℝ) :
    recover_mass_dist_default env Mn Mw pdi
      = recover_mass_dist env Mn Mw pdi gaussianChars := by
  unfold recover_mass_dist_default
  exact recover_pyLower_congr env Mn Mw pdi defaultDistribution gaussianChars (by decide)

/-- C3 (code bug): pdi = 1.0 with Mn = 50, Mw = 60 deviates from
Mw/Mn = 1.2 by 0.2, far beyond the 1e-5 tolerance, yet the call is
accepted and returns a Gaussian density: the consistency assert
compares `pdi - Mw/Mn < 1e-5` with no absolute value, so any pdi lying
below the ratio passes. -/
theorem negative_pdi_deviation_accepted :
    recover_mass_dist env0 (some 50) (some 60) (some 1) gaussianChars
      = Except.ok (gaussDensity 50 (50 * (60 - 50))) := by
  have hc : countKnown [some (1:ℝ), some 50, some 60] = 3 := rfl
  unfold recover_mass_dist
  rw [if_neg (by simp [pyLower_gaussian]), if_neg (by omega), if_pos hc,
    if_neg (not_not.mpr (by norm_num [Option.getD_some])),
    familyDispatch_gaussian env0 _ _ _ pyLower_gaussian]
  rfl

/-- C4 counterexample: the call (Mn=60, Mw=50), which has Mw < Mn, is
not rejected: both family branches return a density function and no
error of any kind is raised. -/
theorem mw_le_mn_not_rejected :
    exceptOk (recover_mass_dist env0 (some 60) (some 50) none gaussianChars) = true
  ∧ exceptOk (recover_mass_dist env0 (some 60) (some 50) none weibullChars) = true := by
  constructor
  · rw [recover_two_known env0 (some 60) (some 50) none gaussianChars (Or.inl pyLower_gaussian) rfl,
      familyDispatch_gaussian env0 _ _ _ pyLower_gaussian]
    rfl
  · rw [recover_two_known env0 (some 60) (some 50) none weibullChars (Or.inr pyLower_weibull) rfl,
      familyDispatch_weibull env0 _ _ _ pyLower_weibull]
    rfl

/-- C4 (amended): a call with Mw ≤ Mn is NOT rejected: the code performs
no domain check on the moments, and both family branches still return a
density function (the Gaussian one built with sigma = Mn·(Mw−Mn) ≤ 0),
for every ambient state. -/
theorem mw_le_mn_returns_density (env : PyEnv) (Mn Mw : ℝ) (_h : Mw ≤ Mn) :
    exceptOk (recover_mass_dist env (some Mn) (some Mw) none gaussianChars) = true
  ∧ exceptOk (recover_mass_dist env (some Mn) (some Mw) none weibullChars) = true := by
  constructor
  · rw [recover_two_known env (some Mn) (some Mw) none gaussianChars (Or.inl pyLower_gaussian) rfl,
      familyDispatch_gaussian env _ _ _ pyLower_gaussian]
    rfl
  · rw [recover_two_known env (some Mn) (some Mw) none weibullChars (Or.inr pyLower_weibull) rfl,
      familyDispatch_weibull env _ _ _ pyLower_weibull]
    rfl

/-- Witness for the amended C4 at the concrete call (Mn=60, Mw=50). -/
theorem mw_le_mn_returns_density_witness :
    (50:ℝ) ≤ 60
  ∧ (exceptOk (recover_mass_dist envConst2 (some 60) (some 50) none gaussianChars) = true
     ∧ exceptOk (recover_mass_dist envConst2 (some 60) (some 50) none weibullChars) = true) :=
  ⟨by norm_num, mw_le_mn_returns_density envConst2 60 50 (by norm_num)⟩

lemma recovered_k_envConst2 : recovered_k envConst2 = 2 := rfl

lemma recovered_lambda_envConst2 : recovered_lambda envConst2 1 = 2 / Real.sqrt Real.pi := by
  unfold recovered_lambda
  rw [recovered_k_envConst2]
  unfold f2
  rw [Real.Gamma_one_half_eq]
  norm_num

lemma recovered_lambda_envConst2_pos : 0 < recovered_lambda envConst2 1 := by
  rw [recovered_lambda_envConst2]
  positivity

/-- C5 counterexample: with a converged solver state giving shape k = 2
(the exact residual root at module globals (π, 4)) and the call
(Mn=1, Mw=2), the returned Weibull density evaluated at x = −1 is a
strictly negative value, not 0: the returned closure has no x < 0
branch, and the density is not non-negative everywhere. -/
theorem weibull_density_negative_at_negative_x :
    (applyDensity (recover_mass_dist envConst2 (some 1) (some 2) none weibullChars) (-1)).isSome
      = true
  ∧ (applyDensity (recover_mass_dist envConst2 (some 1) (some 2) none weibullChars) (-1)).getD 0
      < 0 := by
  have hrec : recover_mass_dist envConst2 (some 1) (some 2) none weibullChars
      = Except.ok (weibullDensity 2 (recovered_lambda envConst2 1)) := by
    rw [recover_two_known envConst2 (some 1) (some 2) none weibullChars (Or.inr pyLower_weibull)
      rfl, familyDispatch_weibull envConst2 _ _ _ pyLower_weibull]
    rfl
  rw [hrec]
  refine ⟨rfl, ?_⟩
  show weibullDensity 2 (recovered_lambda envConst2 1) (-1) < 0
  have hl : 0 < recovered_lambda envConst2 1 := recovered_lambda_envConst2_pos
  unfold weibullDensity
  rw [show ((2:ℝ) - 1) = 1 by norm_num, Real.rpow_one]
  apply mul_neg_of_neg_of_pos
  · apply mul_neg_of_pos_of_neg
    · positivity
    · exact div_neg_of_neg_of_pos (by norm_num) hl
  · exact Real.exp_pos _

/-- C5 (amended): the Weibull branch returns the closure applying
(k/λ)·(x/λ)^(k−1)·exp(−(x/λ)^k) at EVERY real x — there is no zero
branch for x < 0 — and that density is non-negative at every x ≥ 0
whenever the recovered shape is non-negative and the recovered scale
positive. -/
theorem weibull_density_formula_all_x (env : PyEnv) (Mn Mw : ℝ) :
    recover_mass_dist env (some Mn) (some Mw) none weibullChars
      = Except.ok (weibullDensity (recovered_k env) (recovered_lambda env Mn))
  ∧ (0 ≤ recovered_k env → 0 < recovered_lambda env Mn →
      ∀ x : ℝ, 0 ≤ x → 0 ≤ weibullDensity (recovered_k env) (recovered_lambda env Mn) x) := by
  constructor
  · rw [recover_two_known env (some Mn) (some Mw) none weibullChars (Or.inr pyLower_weibull) rfl,
      familyDispatch_weibull env _ _ _ pyLower_weibull]
    rfl
  · intro hk hl x hx
    unfold weibullDensity
    have hcoef : 0 ≤ recovered_k env / recovered_lambda env Mn := div_nonneg hk hl.le
    have hpow : 0 ≤ (x / recovered_lambda env Mn) ^ (recovered_k env - 1) :=
      Real.rpow_nonneg (div_nonneg hx hl.le) _
    exact mul_nonneg (mul_nonneg hcoef hpow) (Real.exp_pos _).le

/-- Witness for the amended C5 at the solver state with k = 2 and the
call (Mn=1, Mw=2), evaluating the density at x = 3. -/
theorem weibull_density_formula_all_x_witness :
    (0:ℝ) ≤ recovered_k envConst2 ∧ 0 < recovered_lambda envConst2 1
  ∧ 0 ≤ weibullDensity (recovered_k envConst2) (recovered_lambda envConst2 1) 3 :=
  ⟨by rw [recovered_k_envConst2]; norm_num, recovered_lambda_envConst2_pos,
    (weibull_density_formula_all_x envConst2 1 2).2
      (by rw [recovered_k_envConst2]; norm_num) recovered_lambda_envConst2_pos 3 (by norm_num)⟩

/-- C1 (code bug): the Weibull branch hands the root finder a residual
built from the module globals weib_M_n, weib_M_w instead of the call's
own (completed) Mn, Mw: two calls with identical arguments
(Mn=1, Mw=2, weibull) but different leftover module state return
different densities (value 0 versus 1 at x = 0), so the result is not a
function of the call's inputs alone. -/
theorem weibull_result_depends_on_module_state :
    applyDensity (recover_mass_dist (envStep 1 1) (some 1) (some 2) none weibullChars) 0 = some 0
  ∧ applyDensity (recover_mass_dist (envStep 1 2) (some 1) (some 2) none weibullChars) 0
      = some 1 := by
  constructor
  · have hkA : recovered_k (envStep 1 1) = 2 := by
      show f1 1 1 1 + 1 = 2
      unfold f1
      norm_num [Gamma_two_eq_one, Real.Gamma_one]
    have hrecA : recover_mass_dist (envStep 1 1) (some 1) (some 2) none weibullChars
        = Except.ok (weibullDensity (recovered_k (envStep 1 1))
            (recovered_lambda (envStep 1 1) 1)) := by
      rw [recover_two_known (envStep 1 1) (some 1) (some 2) none weibullChars
        (Or.inr pyLower_weibull) rfl, familyDispatch_weibull (envStep 1 1) _ _ _ pyLower_weibull]
      rfl
    rw [hrecA]
    show some (weibullDensity (recovered_k (envStep 1 1)) (recovered_lambda (envStep 1 1) 1) 0)
      = some 0
    rw [hkA]
    unfold weibullDensity
    norm_num [Real.rpow_one]
  · have hkB : recovered_k (envStep 1 2) = 1 := by
      show f1 1 1 2 + 1 = 1
      unfold f1
      norm_num [Gamma_two_eq_one, Real.Gamma_one]
    have hlB : recovered_lambda (envStep 1 2) 1 = 1 := by
      unfold recovered_lambda
      rw [hkB]
      unfold f2
      norm_num [Real.Gamma_one]
    have hrecB : recover_mass_dist (envStep 1 2) (some 1) (some 2) none weibullChars
        = Except.ok (weibullDensity (recovered_k (envStep 1 2))
            (recovered_lambda (envStep 1 2) 1)) := by
      rw [recover_two_known (envStep 1 2) (some 1) (some 2) none weibullChars
        (Or.inr pyLower_weibull) rfl, familyDispatch_weibull (envStep 1 2) _ _ _ pyLower_weibull]
      rfl
    rw [hrecB, hkB, hlB]
    show some (weibullDensity 1 1 0) = some 1
    unfold weibullDensity
    norm_num [Real.rpow_zero, Real.rpow_one, Real.exp_zero]

end PolyBinder
